import Mathlib

/-!
# Verification of the railapp database-tool query layer

Shallow embedding of `database_tool/views.py`: the multi-dialect query
construction, validation, execution and result-handling logic, together with
the request-handler control flow that the specification describes.

The connector adapters themselves (`database_tool/database_connectors.py`) are
not part of the provided sources; where a property depends on their behaviour
(the `validate_query` safety check, the result-set serialization) the
definitions below are modelled from the specification and are marked as such
in their doc comments.  Everything else is translated directly from
`views.py`.
-/

namespace RailApp

/-! ## Data model -/

/-- The three supported engine kinds (`connection.db_type` in `views.py`). -/
inductive DbType
  | sqlite
  | postgresql
  | mysql
deriving DecidableEq, Repr

/-- The query modes of the query form (`query_type` in `query_table`). -/
inductive QueryType
  | all
  | limit
  | custom
deriving DecidableEq, Repr

/-- A materialized result set: ordered column names and ordered rows
(`pandas.DataFrame` as used by `views.py`), with entries of type `α`. -/
structure DataFrame (α : Type) where
  columns : List String
  rows : List (List α)
deriving DecidableEq, Repr

/-! ## Canned query construction (`views.py` lines 163–182)

`query_table` builds the two canned statements inline, dispatching on
`connection.db_type`; `table_name` is checked for Python truthiness
(`if query_type == 'all' and table_name:`), so the empty string builds
nothing. -/

/-- The "select all rows" statement per dialect (`views.py` lines 165–170). -/
def buildAllQuery (db : DbType) (t : String) : String :=
  match db with
  | .sqlite => "SELECT * FROM [" ++ t ++ "]"
  | .postgresql => "SELECT * FROM \"" ++ t ++ "\""
  | .mysql => "SELECT * FROM `" ++ t ++ "`"

/-- The paginated statement per dialect (`views.py` lines 177–182);
`limit` and `offset` are interpolated in decimal. -/
def buildLimitQuery (db : DbType) (t : String) (limit offset : Nat) : String :=
  match db with
  | .sqlite =>
      "SELECT * FROM [" ++ t ++ "] LIMIT " ++ toString limit
        ++ " OFFSET " ++ toString offset
  | .postgresql =>
      "SELECT * FROM \"" ++ t ++ "\" LIMIT " ++ toString limit
        ++ " OFFSET " ++ toString offset
  | .mysql =>
      "SELECT * FROM `" ++ t ++ "` LIMIT " ++ toString limit
        ++ " OFFSET " ++ toString offset

/-- The query-selection block of `query_table` (`views.py` lines 161–186):
`query` starts as `None` and is assigned only when the mode's requirements
are met; `table_name` must be truthy (non-empty) for the canned modes. -/
def buildQuery (db : DbType) (qt : QueryType) (tableName : Option String)
    (limitRows offsetRows : Nat) (customQuery : Option String) : Option String :=
  match qt, tableName with
  | .all, some t => if t = "" then none else some (buildAllQuery db t)
  | .limit, some t => if t = "" then none else some (buildLimitQuery db t limitRows offsetRows)
  | .custom, _ => customQuery
  | _, none => none

/-! ## Query validation

Modelled from the spec: `validate_query` is implemented by the dialect
adapters in `database_tool/database_connectors.py`, which is not among the
provided sources (only its call sites in `views.py` are).  The definition
below follows the validation policy of spec §4.3 word for word: reject
empty/whitespace-only input with "empty query"; reject statements whose
normalized leading keyword is not `SELECT` (case-insensitive) with a message
naming the forbidden operation; reject a statement separator `;` followed by
further non-whitespace content; otherwise valid.  It is a total function
returning a pair, mirroring the spec's "reported as (false, reason), never
raised". -/

/-- Strip leading and trailing whitespace (Python's `str.strip`). -/
def pyStrip (s : List Char) : List Char :=
  ((s.dropWhile Char.isWhitespace).reverse.dropWhile Char.isWhitespace).reverse

/-- The normalized leading keyword of a statement: the first
whitespace-delimited token of the stripped input, upper-cased. -/
def leadingKeyword (sql : String) : String :=
  ⟨((pyStrip sql.data).takeWhile (fun c => !c.isWhitespace)).map Char.toUpper⟩

/-- Whether a `;` is followed by further non-whitespace content. -/
def stackedStatements : List Char → Bool
  | [] => false
  | ';' :: rest => rest.any (fun c => !c.isWhitespace)
  | _ :: rest => stackedStatements rest

/-- Modelled from the spec (§4.3): the static safety check on free-form SQL,
absent from `src/` (it lives in `database_connectors.py`). -/
def validate_query (sql : String) : Bool × String :=
  if pyStrip sql.data = [] then
    (false, "empty query")
  else if leadingKeyword sql ≠ "SELECT" then
    (false, "Only SELECT statements are allowed; found " ++ leadingKeyword sql)
  else if stackedStatements (pyStrip sql.data) then
    (false, "multiple statements not allowed")
  else
    (true, "ok")

/-! ## Display payload (`views.py` lines 205–211) -/

/-- The `result_data` dictionary built for display after a successful query. -/
structure ResultData (α : Type) where
  columns : List String
  data : List (List α)
  total_rows : Nat
  display_rows : Nat
deriving DecidableEq, Repr

/-- `views.py` lines 206–211: columns, the first 100 rows
(`result_df.head(100)`), the total row count, and `min(len(result_df), 100)`. -/
def toResultData {α : Type} (df : DataFrame α) : ResultData α :=
  { columns := df.columns
    data := df.rows.take 100
    total_rows := df.rows.length
    display_rows := min df.rows.length 100 }

/-! ## Result-set serialization

Modelled from the spec: the session store at `views.py` line 216 serializes the
full result with `result_df.to_json()` and `download_query_result` (line 283)
reconstructs it with `pd.read_json`; the serializer itself is library code
outside `src/`.  Following spec §4.4/§6 — "a full-fidelity serialization
suitable for later reconstruction (round-trip: serialize then deserialize
yields identical column order and row values)" — the result set is encoded
into a JSON-like tree holding the ordered column names and the ordered rows,
and decoded back. -/

/-- A JSON-like value: strings, data cells, and arrays. -/
inductive JValue (α : Type) where
  | str (s : String)
  | cell (a : α)
  | arr (elems : List (JValue α))

/-- Modelled from the spec: serialize a result set for the session store —
the ordered column names followed by the ordered rows. -/
def serializeResult {α : Type} (df : DataFrame α) : JValue α :=
  .arr [.arr (df.columns.map .str), .arr (df.rows.map (fun r => .arr (r.map .cell)))]

/-- Decode a JSON string node. -/
def decodeStr {α : Type} : JValue α → Option String
  | .str s => some s
  | _ => none

/-- Decode a JSON data cell. -/
def decodeCell {α : Type} : JValue α → Option α
  | .cell a => some a
  | _ => none

/-- Decode every element of a list, failing if any element fails. -/
def decodeList {α β : Type} (f : JValue α → Option β) : List (JValue α) → Option (List β)
  | [] => some []
  | x :: xs => do
      let b ← f x
      let bs ← decodeList f xs
      pure (b :: bs)

/-- Decode one serialized row. -/
def decodeRow {α : Type} : JValue α → Option (List α)
  | .arr vs => decodeList decodeCell vs
  | _ => none

/-- Modelled from the spec: reconstruct the result set from its
serialization, failing on malformed input. -/
def deserializeResult {α : Type} : JValue α → Option (DataFrame α)
  | .arr [.arr cs, .arr rs] => do
      let columns ← decodeList decodeStr cs
      let rows ← decodeList decodeRow rs
      pure ⟨columns, rows⟩
  | _ => none

/-! ## Request-handler control flow (`views.py` lines 117–268)

The handlers are embedded as trace-producing functions over an abstract
connector: `connect` returns a boolean, the schema/query operations either
return a value or raise (`Except`), and `validate_query` returns a pair.  The
trace records the observable actions in program order. -/

/-- Observable actions of a request handler, in program order. -/
inductive Event where
  | connected
  | disconnected
  | executedQuery (q : String)
  | savedHistory (q : String) (success : Bool) (errorMessage : String)
  | showedError (m : String)
  | renderedPage (template : String)
  | redirected (target : String)
deriving DecidableEq, Repr

/-- An abstract dialect-adapter session, as `views.py` sees one through the
facade: `connect()`'s boolean outcome, and the behaviour of the validation,
execution and schema operations. -/
structure Connector (α : Type) where
  connectOk : Bool
  validate : String → Bool × String
  execute : String → Except String (DataFrame α)
  getTableInfo : String → Except String (List String)
  getTableData : String → Except String (DataFrame α)

/-- The POST branch of `query_table` (`views.py` lines 158–245): connect,
build the query, check Python truthiness (`if query:`), validate (a failure
is raised and caught, logged, and shown as `Query failed: ...`), execute,
log to `QueryHistory`, disconnect and render on success.  An exception after
a successful connect jumps to the `except` block, which does not call
`disconnect()`. -/
def queryTablePost {α : Type} (c : Connector α) (db : DbType) (qt : QueryType)
    (tableName : Option String) (limitRows offsetRows : Nat)
    (customQuery : Option String) : List Event :=
  if c.connectOk then
    match buildQuery db qt tableName limitRows offsetRows customQuery with
    | some q =>
      if q = "" then
        [.connected, .showedError "No valid query to execute"]
      else
        match c.validate q with
        | (true, _) =>
          match c.execute q with
          | .ok _ =>
              [.connected, .executedQuery q, .savedHistory q true "",
               .disconnected, .renderedPage "query_result"]
          | .error e =>
              [.connected, .executedQuery q, .savedHistory q false e,
               .showedError ("Query failed: " ++ e)]
        | (false, m) =>
            [.connected, .savedHistory q false m,
             .showedError ("Query failed: " ++ m)]
    | none => [.connected, .showedError "No valid query to execute"]
  else
    [.showedError "Query failed: Could not connect to database"]

/-- `table_detail` (`views.py` lines 117–144): connect, fetch the table info
and the first sample rows, then disconnect and render; a raising operation
jumps to the `except` block (error message, redirect) without `disconnect()`,
and a failed connect also redirects without `disconnect()`. -/
def tableDetailTrace {α : Type} (c : Connector α) (tableName : String) : List Event :=
  if c.connectOk then
    match c.getTableInfo tableName with
    | .error e =>
        [.connected, .showedError ("Error fetching table details: " ++ e),
         .redirected "connection_detail"]
    | .ok _ =>
      match c.getTableData tableName with
      | .error e =>
          [.connected, .showedError ("Error fetching table details: " ++ e),
           .redirected "connection_detail"]
      | .ok _ =>
          [.connected, .disconnected, .renderedPage "table_detail"]
  else
    [.showedError "Could not connect to database", .redirected "connection_detail"]

/-- Whether an event is a `QueryHistory` write. -/
def isHistoryEvent : Event → Bool
  | .savedHistory _ _ _ => true
  | _ => false

/-- The single `QueryHistory` record `query_table` writes for an attempt on
query `q`: the validator's message on a validation failure, `success=True`
with the executed text on success, the error text on an execution failure. -/
def historyRecord {α : Type} (c : Connector α) (q : String) : Event :=
  match c.validate q with
  | (false, m) => .savedHistory q false m
  | (true, _) =>
    match c.execute q with
    | .ok _ => .savedHistory q true ""
    | .error e => .savedHistory q false e

/-- A sample three-row result set, used to instantiate the handler models. -/
def sampleDF : DataFrame String :=
  ⟨["id", "name"], [["1", "a"], ["2", "b"], ["3", "c"]]⟩

/-- A session on which every operation succeeds. -/
def okConnector : Connector String :=
  { connectOk := true
    validate := validate_query
    execute := fun _ => .ok sampleDF
    getTableInfo := fun _ => .ok ["id", "name"]
    getTableData := fun _ => .ok sampleDF }

/-- A session that connects but whose schema and execution operations raise. -/
def failConnector : Connector String :=
  { okConnector with
    getTableInfo := fun _ => .error "no such table"
    execute := fun _ => .error "syntax error" }

/-! ## Python name binding for `test_connection` (`views.py` lines 17, 75–89)

`views.py` imports `test_connection` from `database_connectors` at line 17 and
then defines a view function `def test_connection(request, connection_id)` at
line 76: a later module-level `def` rebinds the module-level name, so every
call `test_connection(connection)` (lines 48, 81 and 419) resolves to the
view.  Supplying one positional argument to a callable requiring two raises
`TypeError` (the `login_required` wrapper accepts the lone argument but then
invokes the underlying two-parameter view, so the call still ends in
`TypeError`); the surrounding `try` blocks catch it and report an error
message.  A local variable referenced before assignment raises
`UnboundLocalError`, a subclass of `NameError`. -/

/-- The callables the module-level name `test_connection` is bound to. -/
inductive PyCallable where
  | connectorTestConnection
  | viewTestConnection
deriving DecidableEq, Repr

/-- Required positional parameters: the imported helper takes `(connection)`,
the view takes `(request, connection_id)`. -/
def requiredParams : PyCallable → Nat
  | .connectorTestConnection => 1
  | .viewTestConnection => 2

/-- Module-level bindings of the name `test_connection` in file order:
the import at line 17, then the `def` at line 76. -/
def testConnectionBindings : List PyCallable :=
  [.connectorTestConnection, .viewTestConnection]

/-- Python errors observed by the embedded handlers. -/
inductive PyError where
  | typeError
  | nameError
deriving DecidableEq, Repr

/-- Python module-name lookup after module initialization: the last binding
wins. -/
def resolvedTestConnection : Option PyCallable := testConnectionBindings.getLast?

/-- Calling a callable with `n` positional arguments: `TypeError` unless `n`
matches the required parameter count; `wouldReturn` is the value a matching
call would produce. -/
def callWithArgs (f : PyCallable) (n : Nat) (wouldReturn : Bool × String) :
    Except PyError (Bool × String) :=
  if n = requiredParams f then .ok wouldReturn else .error .typeError

/-- The call `test_connection(connection)` as executed at `views.py` lines
48, 81 and 419: resolve the module-level name, then call with one argument. -/
def callTestConnection (wouldReturn : Bool × String) :
    Except PyError (Bool × String) :=
  match resolvedTestConnection with
  | some f => callWithArgs f 1 wouldReturn
  | none => .error .nameError

/-- HTTP request methods distinguished by the handlers. -/
inductive Method where
  | get
  | post
deriving DecidableEq, Repr

/-- What an embedded handler run produced: the returned response (or an
uncaught Python error), whether `connection.save()` ran, and the queued
success/error flash messages. -/
structure HandlerOutcome where
  response : Except PyError String
  savedConnection : Bool
  successMessages : List String
  errorMessages : List String
deriving Repr

/-- `add_connection` (`views.py` lines 37–60).  On a valid POST the local
`connection` is bound at line 43 and the `test_connection` call is attempted
inside `try`; a caught exception or a failed test falls through to the render
at line 60.  On GET, line 58 references the local `connection` before any
assignment; on an invalid POST, line 60 does — both raise
`NameError` (`UnboundLocalError`). -/
def add_connection (method : Method) (formValid : Bool)
    (testCall : Except PyError (Bool × String)) : HandlerOutcome :=
  match method with
  | .post =>
    if formValid then
      match testCall with
      | .ok (true, _) =>
          { response := .ok "redirect:dashboard", savedConnection := true,
            successMessages := ["added successfully"], errorMessages := [] }
      | .ok (false, m) =>
          { response := .ok "render:edit_connection", savedConnection := false,
            successMessages := [], errorMessages := ["Connection test failed: " ++ m] }
      | .error _ =>
          { response := .ok "render:edit_connection", savedConnection := false,
            successMessages := [], errorMessages := ["Error testing connection: TypeError"] }
    else
      { response := .error .nameError, savedConnection := false,
        successMessages := [], errorMessages := [] }
  | .get =>
      { response := .error .nameError, savedConnection := false,
        successMessages := [], errorMessages := [] }

/-- `edit_connection` (`views.py` lines 407–427): like `add_connection` but
with a bound `connection` on every path; non-success paths fall off the end
of the function (Python returns `None`). -/
def edit_connection (method : Method) (formValid : Bool)
    (testCall : Except PyError (Bool × String)) : HandlerOutcome :=
  match method with
  | .post =>
    if formValid then
      match testCall with
      | .ok (true, _) =>
          { response := .ok "redirect:connection_detail", savedConnection := true,
            successMessages := ["updated successfully"], errorMessages := [] }
      | .ok (false, m) =>
          { response := .ok "none", savedConnection := false,
            successMessages := [], errorMessages := ["Connection test failed: " ++ m] }
      | .error _ =>
          { response := .ok "none", savedConnection := false,
            successMessages := [], errorMessages := ["Error testing connection: TypeError"] }
    else
      { response := .ok "none", savedConnection := false,
        successMessages := [], errorMessages := [] }
  | .get =>
      { response := .ok "none", savedConnection := false,
        successMessages := [], errorMessages := [] }

/-- The `test_connection` view (`views.py` lines 75–89): try the connection
test, flash success or failure, and redirect to the connection detail page. -/
def test_connection_view (testCall : Except PyError (Bool × String)) :
    HandlerOutcome :=
  match testCall with
  | .ok (true, m) =>
      { response := .ok "redirect:connection_detail", savedConnection := false,
        successMessages := ["Connection test successful: " ++ m], errorMessages := [] }
  | .ok (false, m) =>
      { response := .ok "redirect:connection_detail", savedConnection := false,
        successMessages := [], errorMessages := ["Connection test failed: " ++ m] }
  | .error _ =>
      { response := .ok "redirect:connection_detail", savedConnection := false,
        successMessages := [], errorMessages := ["Error testing connection: TypeError"] }

end RailApp

namespace RailApp

/-! ## Theorems: canned query construction and validation -/

/-- **C3.** Building the "select all rows" canned query for a (truthy) table
name `t` yields exactly `SELECT * FROM [t]` under sqlite, `SELECT * FROM "t"`
under postgresql and ``SELECT * FROM `t` `` under mysql. -/
theorem select_all_query_quoting (t : String) (h : t ≠ "") :
    buildQuery .sqlite .all (some t) 1000 0 none = some ("SELECT * FROM [" ++ t ++ "]") ∧
    buildQuery .postgresql .all (some t) 1000 0 none = some ("SELECT * FROM \"" ++ t ++ "\"") ∧
    buildQuery .mysql .all (some t) 1000 0 none = some ("SELECT * FROM `" ++ t ++ "`") := by
  refine ⟨?_, ?_, ?_⟩ <;> simp [buildQuery, buildAllQuery, h]

theorem select_all_query_quoting_witness :
    "my table" ≠ "" ∧
    (buildQuery .sqlite .all (some "my table") 1000 0 none = some "SELECT * FROM [my table]" ∧
     buildQuery .postgresql .all (some "my table") 1000 0 none = some "SELECT * FROM \"my table\"" ∧
     buildQuery .mysql .all (some "my table") 1000 0 none = some "SELECT * FROM `my table`") :=
  ⟨by decide, select_all_query_quoting "my table" (by decide)⟩

/-- **C4.** Building the paginated canned query for a (truthy) table name `t`
with limit `L` and offset `O` yields the dialect-correctly quoted
`SELECT * FROM <quoted t> LIMIT L OFFSET O` for all naturals `L`, `O`. -/
theorem paginated_query_quoting (t : String) (L O : Nat) (h : t ≠ "") :
    buildQuery .sqlite .limit (some t) L O none =
      some ("SELECT * FROM [" ++ t ++ "] LIMIT " ++ toString L ++ " OFFSET " ++ toString O) ∧
    buildQuery .postgresql .limit (some t) L O none =
      some ("SELECT * FROM \"" ++ t ++ "\" LIMIT " ++ toString L ++ " OFFSET " ++ toString O) ∧
    buildQuery .mysql .limit (some t) L O none =
      some ("SELECT * FROM `" ++ t ++ "` LIMIT " ++ toString L ++ " OFFSET " ++ toString O) := by
  refine ⟨?_, ?_, ?_⟩ <;> simp [buildQuery, buildLimitQuery, h]

theorem paginated_query_quoting_witness :
    "users" ≠ "" ∧
    (buildQuery .sqlite .limit (some "users") 10 20 none =
       some "SELECT * FROM [users] LIMIT 10 OFFSET 20" ∧
     buildQuery .postgresql .limit (some "users") 10 20 none =
       some "SELECT * FROM \"users\" LIMIT 10 OFFSET 20" ∧
     buildQuery .mysql .limit (some "users") 10 20 none =
       some "SELECT * FROM `users` LIMIT 10 OFFSET 20") :=
  ⟨by decide, paginated_query_quoting "users" 10 20 (by decide)⟩

/-- **C1.** Every input whose normalized leading keyword is not `SELECT`
(case-insensitively) is rejected by `validate_query` with a `(false, message)`
result whose message names the forbidden operation.  The rejection is a
returned pair — `validate_query` is a total function into `Bool × String`,
never an exception.  (`validate_query("DROP TABLE x")` is the witness.) -/
theorem validate_query_rejects_non_select (sql : String)
    (h1 : pyStrip sql.data ≠ []) (h2 : leadingKeyword sql ≠ "SELECT") :
    validate_query sql =
      (false, "Only SELECT statements are allowed; found " ++ leadingKeyword sql) := by
  simp [validate_query, h1, h2]

theorem validate_query_rejects_non_select_witness :
    pyStrip "DROP TABLE x".data ≠ [] ∧ leadingKeyword "DROP TABLE x" ≠ "SELECT" ∧
    validate_query "DROP TABLE x" =
      (false, "Only SELECT statements are allowed; found DROP") :=
  ⟨by decide, by decide,
    validate_query_rejects_non_select "DROP TABLE x" (by decide) (by decide)⟩

/-! ## Theorems: display preview and serialization round-trip -/

/-- **C8.** The display payload holds exactly the first `min(total, 100)` rows
of the result in their original order (a prefix of the rows of length
`min(total, 100)`), with `total_rows` the full row count and `display_rows`
equal to `min(total, 100)`. -/
theorem preview_is_first_100_rows {α : Type} (df : DataFrame α) :
    (toResultData df).data = df.rows.take 100 ∧
    (toResultData df).data <+: df.rows ∧
    (toResultData df).data.length = min df.rows.length 100 ∧
    (toResultData df).total_rows = df.rows.length ∧
    (toResultData df).display_rows = min df.rows.length 100 := by
  refine ⟨rfl, List.take_prefix _ _, ?_, rfl, rfl⟩
  simp [toResultData, List.length_take, Nat.min_comm]

theorem decodeStr_map_str {α : Type} (l : List String) :
    decodeList decodeStr (l.map (JValue.str (α := α))) = some l := by
  induction l with
  | nil => rfl
  | cons x xs ih => simp [decodeList, decodeStr, ih]

theorem decodeCell_map_cell {α : Type} (l : List α) :
    decodeList decodeCell (l.map JValue.cell) = some l := by
  induction l with
  | nil => rfl
  | cons x xs ih => simp [decodeList, decodeCell, ih]

theorem decodeRow_map_row {α : Type} (rows : List (List α)) :
    decodeList decodeRow (rows.map (fun r => JValue.arr (r.map JValue.cell))) = some rows := by
  induction rows with
  | nil => rfl
  | cons r rs ih => simp [decodeList, decodeRow, decodeCell_map_cell, ih]

/-- **C5.** Serializing a result set and deserializing it later reconstructs
the table exactly: identical column order and identical rows in the original
order (hence a download built from the deserialized table contains all rows,
unreordered). -/
theorem serialize_deserialize_roundtrip {α : Type} (df : DataFrame α) :
    deserializeResult (serializeResult df) = some df := by
  cases df with
  | mk columns rows =>
      simp [serializeResult, deserializeResult, decodeStr_map_str, decodeRow_map_row]

/-! ## Theorems: `query_table` control flow -/

/-- **C2.** `execute_query` runs only on queries the validator accepted:
every `executedQuery` event in a `query_table` trace is for a query on which
`validate_query` returned `true`; and whenever the validator returns
`(false, m)` for the built query, the query is never executed and the attempt
is reported as a failure (history record and error message) carrying the
validator's message `m`. -/
theorem query_validated_before_execution {α : Type} (c : Connector α)
    (db : DbType) (qt : QueryType) (tableName : Option String)
    (limitRows offsetRows : Nat) (customQuery : Option String) :
    (∀ q, Event.executedQuery q ∈
        queryTablePost c db qt tableName limitRows offsetRows customQuery →
      (c.validate q).1 = true) ∧
    (∀ q m, buildQuery db qt tableName limitRows offsetRows customQuery = some q →
      q ≠ "" → c.connectOk = true → c.validate q = (false, m) →
      Event.executedQuery q ∉
          queryTablePost c db qt tableName limitRows offsetRows customQuery ∧
        queryTablePost c db qt tableName limitRows offsetRows customQuery =
          [.connected, .savedHistory q false m,
           .showedError ("Query failed: " ++ m)]) := by
  constructor
  · intro q hq
    by_cases hc : c.connectOk
    · rcases hbuild : buildQuery db qt tableName limitRows offsetRows customQuery with _ | q'
      · simp [queryTablePost, hc, hbuild] at hq
      · by_cases hq' : q' = ""
        · simp [queryTablePost, hc, hbuild, hq'] at hq
        · rcases hval : c.validate q' with ⟨ok, msg⟩
          cases ok
          · simp [queryTablePost, hc, hbuild, hq', hval] at hq
          · cases hex : c.execute q' with
            | ok d =>
                simp [queryTablePost, hc, hbuild, hq', hval, hex] at hq
                subst hq; rw [hval]
            | error e =>
                simp [queryTablePost, hc, hbuild, hq', hval, hex] at hq
                subst hq; rw [hval]
    · simp [queryTablePost, hc] at hq
  · intro q m hbuild hne hc hval
    constructor
    · simp [queryTablePost, hc, hbuild, hne, hval]
    · simp [queryTablePost, hc, hbuild, hne, hval]

theorem query_validated_before_execution_witness :
    Event.executedQuery "DROP TABLE x" ∉
        queryTablePost okConnector .sqlite .custom none 1000 0 (some "DROP TABLE x") ∧
      queryTablePost okConnector .sqlite .custom none 1000 0 (some "DROP TABLE x") =
        [.connected,
         .savedHistory "DROP TABLE x" false
           "Only SELECT statements are allowed; found DROP",
         .showedError "Query failed: Only SELECT statements are allowed; found DROP"] :=
  (query_validated_before_execution okConnector .sqlite .custom none 1000 0
      (some "DROP TABLE x")).2 "DROP TABLE x"
    "Only SELECT statements are allowed; found DROP" rfl (by decide) rfl (by decide)

/-- **C6.** Every query attempt that reaches the validate/execute stage of
`query_table` writes exactly one `QueryHistory` record: `success=True` with
the executed query text when execution succeeds, `success=False` with the
error text (the validator's message or the engine error) when it fails.  The
trace model is append-only — records are never mutated after creation. -/
theorem query_history_exactly_one_record {α : Type} (c : Connector α)
    (db : DbType) (qt : QueryType) (tableName : Option String)
    (limitRows offsetRows : Nat) (customQuery : Option String) (q : String)
    (hq : buildQuery db qt tableName limitRows offsetRows customQuery = some q)
    (hne : q ≠ "") (hc : c.connectOk = true) :
    (queryTablePost c db qt tableName limitRows offsetRows customQuery).filter
        isHistoryEvent = [historyRecord c q] := by
  rcases hval : c.validate q with ⟨ok, msg⟩
  cases ok
  · simp [queryTablePost, historyRecord, hc, hq, hne, hval, isHistoryEvent]
  · cases hex : c.execute q with
    | ok d =>
        simp [queryTablePost, historyRecord, hc, hq, hne, hval, hex, isHistoryEvent]
    | error e =>
        simp [queryTablePost, historyRecord, hc, hq, hne, hval, hex, isHistoryEvent]

theorem query_history_exactly_one_record_witness :
    (queryTablePost okConnector .sqlite .all (some "users") 1000 0 none).filter
        isHistoryEvent = [historyRecord okConnector "SELECT * FROM [users]"] :=
  query_history_exactly_one_record okConnector .sqlite .all (some "users") 1000 0 none
    "SELECT * FROM [users]" (by decide) (by decide) rfl

/-! ## Theorems: session release (`disconnect`) -/

/-- **C7 (counterexample).** The claim "if `connect()` succeeds then
`disconnect()` is called before the handler returns, on every control path
including paths where a subsequent schema or query operation raises" is false:
in `table_detail` with a session whose `get_table_info` raises, `connect()`
succeeds yet no `disconnected` event occurs before the handler returns. -/
theorem disconnect_skipped_when_schema_raises :
    failConnector.connectOk = true ∧
    Event.connected ∈ tableDetailTrace failConnector "users" ∧
    Event.disconnected ∉ tableDetailTrace failConnector "users" := by
  refine ⟨rfl, by decide, by decide⟩

/-- **C7 (amended).** If `connect()` succeeds and the subsequent operations
complete without raising or failing, `disconnect()` is called before the
handler returns: `table_detail` disconnects when both the table-info and
sample-data fetches succeed, and `query_table` disconnects when the built
query validates and executes successfully.  (On raising/failing paths
`disconnect()` is skipped, as the counterexample shows.) -/
theorem disconnect_called_on_success_paths {α : Type} (c : Connector α)
    (hc : c.connectOk = true) :
    (∀ t info d, c.getTableInfo t = .ok info → c.getTableData t = .ok d →
      tableDetailTrace c t =
        [.connected, .disconnected, .renderedPage "table_detail"]) ∧
    (∀ db qt tableName limitRows offsetRows customQuery q df,
      buildQuery db qt tableName limitRows offsetRows customQuery = some q →
      q ≠ "" → (c.validate q).1 = true → c.execute q = .ok df →
      Event.disconnected ∈
        queryTablePost c db qt tableName limitRows offsetRows customQuery) := by
  constructor
  · intro t info d hinfo hdata
    simp [tableDetailTrace, hc, hinfo, hdata]
  · intro db qt tableName limitRows offsetRows customQuery q df hbuild hne hval hex
    rcases hv : c.validate q with ⟨ok, msg⟩
    rw [hv] at hval
    cases ok
    · simp at hval
    · simp [queryTablePost, hc, hbuild, hne, hv, hex]

theorem disconnect_called_on_success_paths_witness :
    tableDetailTrace okConnector "users" =
      [.connected, .disconnected, .renderedPage "table_detail"] ∧
    Event.disconnected ∈
      queryTablePost okConnector .sqlite .all (some "users") 1000 0 none :=
  ⟨(disconnect_called_on_success_paths okConnector rfl).1 "users" ["id", "name"]
      sampleDF rfl rfl,
   (disconnect_called_on_success_paths okConnector rfl).2 .sqlite .all (some "users")
      1000 0 none "SELECT * FROM [users]" sampleDF (by decide) (by decide)
      (by decide) rfl⟩

/-! ## Theorems: name shadowing and the unbound local -/

/-- **C9.** The view `test_connection` rebinds the module-level name imported
from `database_connectors`, so `test_connection(connection)` resolves to the
two-parameter view called with one argument and raises `TypeError`; the
surrounding handlers catch it and report an error message, so the connection
test never succeeds and `add_connection`/`edit_connection` never save a
connection. -/
theorem test_connection_name_shadowed :
    resolvedTestConnection = some PyCallable.viewTestConnection ∧
    (∀ r, callTestConnection r = .error .typeError) ∧
    (∀ fv r, (add_connection .post fv (callTestConnection r)).savedConnection = false ∧
      (add_connection .post fv (callTestConnection r)).successMessages = []) ∧
    (∀ fv r, (edit_connection .post fv (callTestConnection r)).savedConnection = false ∧
      (edit_connection .post fv (callTestConnection r)).successMessages = []) ∧
    (∀ r, (test_connection_view (callTestConnection r)).successMessages = [] ∧
      (test_connection_view (callTestConnection r)).errorMessages =
        ["Error testing connection: TypeError"]) := by
  refine ⟨rfl, fun r => rfl, ?_, ?_, ?_⟩
  · intro fv r
    cases fv <;> simp [add_connection, callTestConnection, resolvedTestConnection,
      testConnectionBindings, callWithArgs, requiredParams]
  · intro fv r
    cases fv <;> simp [edit_connection, callTestConnection, resolvedTestConnection,
      testConnectionBindings, callWithArgs, requiredParams]
  · intro r
    simp [test_connection_view, callTestConnection, resolvedTestConnection,
      testConnectionBindings, callWithArgs, requiredParams]

/-- **C10.** On every GET request and on every POST with an invalid form,
`add_connection` raises `NameError` (`UnboundLocalError` at lines 58/60,
where the local `connection` is referenced without ever being assigned), so
the add-connection form is never rendered on those paths. -/
theorem add_connection_raises_name_error (fv : Bool)
    (t : Except PyError (Bool × String)) :
    (add_connection .get fv t).response = .error .nameError ∧
    (add_connection .post false t).response = .error .nameError :=
  ⟨rfl, rfl⟩

end RailApp
